import Mathlib

/-!
Shallow embedding of the generic HTTP request helper of
src/example-05.tsx and its two call-site specializations,
with theorems settling the specification's claims about it.

The TypeScript source is:

  async function request<
    D extends ... BodyType: undefined | object; ResponseType: object ...
  >(
    method: "GET" | "POST",
    endpoint: string,
    body?: D["BodyType"]
  ): Promise<D["ResponseType"]> ...
    const response = await fetch(base + endpoint, with method and
      body: body ? JSON.stringify(body) : undefined);
    return response.json();

JavaScript runtime values that can travel as JSON are modelled by
`JSValue` (numbers as integers; the claims involve no fractional
numerics).  `undefined`, which is how an omitted optional argument
arrives, is modelled by `Option`'s `none`.  The injected transport
(`fetch`) is a function from a URL and a request-configuration record
to either a network failure or a response; per the specification the
JSON decode of the response body is a delegated external capability,
so a response carries the outcome of its decode operation
(`jsonResult = none` models a body that cannot be parsed at all).
-/

/-- The closed method set `"GET" | "POST"` of the source signature. -/
inductive Method
  | GET
  | POST
deriving DecidableEq, Repr

/-- JavaScript values exchangeable as JSON, as used by the snippet. -/
inductive JSValue
  | null
  | bool (b : Bool)
  | num (n : Int)
  | str (s : String)
  | arr (elems : List JSValue)
  | obj (fields : List (String × JSValue))
deriving Repr

/-- JavaScript truthiness of the optional `body` argument: `undefined`
(`none`), `null`, `false`, `0` and the empty string are falsy; every
object, array and other primitive value is truthy.  This is the test
the source performs in `body ? JSON.stringify(body) : undefined`. -/
def jsTruthy : Option JSValue → Bool
  | none => false
  | some JSValue.null => false
  | some (JSValue.bool b) => b
  | some (JSValue.num n) => n != 0
  | some (JSValue.str s) => s != ""
  | some (JSValue.arr _) => true
  | some (JSValue.obj _) => true

/-- One JSON string-escape step of `JSON.stringify`. -/
def escapeJsonChar (c : Char) : String :=
  if c = '"' then "\\\""
  else if c = '\\' then "\\\\"
  else if c = '\n' then "\\n"
  else if c = '\r' then "\\r"
  else if c = '\t' then "\\t"
  else String.singleton c

/-- JSON quoting of a string, as `JSON.stringify` renders string data. -/
def escapeJsonString (s : String) : String :=
  "\"" ++ String.join (s.toList.map escapeJsonChar) ++ "\""

mutual

/-- The `JSON.stringify` serialization of a value (structured payload
to text), the encode capability invoked by the source on line 10. -/
def stringify : JSValue → String
  | JSValue.null => "null"
  | JSValue.bool true => "true"
  | JSValue.bool false => "false"
  | JSValue.num n => toString n
  | JSValue.str s => escapeJsonString s
  | JSValue.arr xs => "[" ++ stringifyElems xs ++ "]"
  | JSValue.obj fs => "\x7b" ++ stringifyMembers fs ++ "\x7d"

/-- Comma-separated serialization of array elements. -/
def stringifyElems : List JSValue → String
  | [] => ""
  | [x] => stringify x
  | x :: y :: xs => stringify x ++ "," ++ stringifyElems (y :: xs)

/-- Comma-separated serialization of object members. -/
def stringifyMembers : List (String × JSValue) → String
  | [] => ""
  | [(k, v)] => escapeJsonString k ++ ":" ++ stringify v
  | (k, v) :: m :: fs =>
    escapeJsonString k ++ ":" ++ stringify v ++ "," ++ stringifyMembers (m :: fs)

end

/-- The configuration record the source passes to `fetch`: the method
and an optional already-serialized text body (`none` = `undefined`). -/
structure RequestInit where
  method : Method
  body : Option String
deriving DecidableEq, Repr

/-- A transport response: its HTTP status and the outcome of its
`json()` decode operation (`none` when the body cannot be parsed at
all).  JSON decoding is the delegated external capability of the
specification, so the response carries its outcome directly. -/
structure JsResponse where
  status : Nat
  jsonResult : Option JSValue

/-- The injected `fetch`-like transport capability: URL and
configuration in, either a network failure or a response out. -/
abbrev Transport := String → RequestInit → Except Unit JsResponse

/-- The error taxonomy of the specification. -/
inductive RequestError
  | transport
  | encoding
  | decoding
deriving DecidableEq, Repr

/-- The URL construction of source line 8: the fixed base URL with the
endpoint appended verbatim. -/
def requestUrl (endpoint : String) : String :=
  "https://api.com/v1" ++ endpoint

/-- The body field of the fetch configuration, source line 10:
`body ? JSON.stringify(body) : undefined`. -/
def requestBodyField (body : Option JSValue) : Option String :=
  match body with
  | some b => if jsTruthy (some b) then some (stringify b) else none
  | none => none

/-- The configuration record handed to the transport, source lines
9 to 11. -/
def requestInit (method : Method) (body : Option JSValue) : RequestInit :=
  { method := method, body := requestBodyField body }

/-- The request helper of src/example-05.tsx: one transport call, then
`response.json()` returned directly; a transport rejection propagates
as `TransportError` and a failed decode as `DecodingError`, and
nothing else (no status inspection, no schema check, no retry). -/
def request (transport : Transport) (method : Method) (endpoint : String)
    (body : Option JSValue) : Except RequestError JSValue :=
  match transport (requestUrl endpoint) (requestInit method body) with
  | Except.error _ => Except.error RequestError.transport
  | Except.ok response =>
    match response.jsonResult with
    | some v => Except.ok v
    | none => Except.error RequestError.decoding

/-- The body half of a call-site descriptor `D`: its `BodyType` member
is either `undefined` (absent) or a structured payload type. -/
inductive BodySpec
  | absent
  | present

/-- What a call site may pass as the optional `body` argument under a
given descriptor: under `BodyType = undefined` only the omitted or
undefined argument (a single trivial value), under a present
`BodyType` an optional payload value. -/
def BodyArg : BodySpec → Type
  | BodySpec.absent => Unit
  | BodySpec.present => Option JSValue

/-- The runtime value of the `body` argument a well-typed call site
supplies: the type-level descriptor erases to this and nothing more. -/
def eraseBody : (s : BodySpec) → BodyArg s → Option JSValue
  | BodySpec.absent, _ => none
  | BodySpec.present, b => b

/-- The request helper as seen through a descriptor-typed call
boundary: the descriptor constrains the body argument statically and
the call erases to `request` on the erased body. -/
def requestTyped (s : BodySpec) (transport : Transport) (method : Method)
    (endpoint : String) (b : BodyArg s) : Except RequestError JSValue :=
  request transport method endpoint (eraseBody s b)

/-- `getUser` of the source: descriptor with `BodyType = undefined`
and `ResponseType = User`, method GET, no body. -/
def getUser (transport : Transport) (userId : Int) :
    Except RequestError JSValue :=
  requestTyped BodySpec.absent transport Method.GET
    ("/users/" ++ toString userId) ()

/-- `createUser` of the source: descriptor with `BodyType = User` and
`ResponseType = User`, method POST, the user as body. -/
def createUser (transport : Transport) (user : JSValue) :
    Except RequestError JSValue :=
  requestTyped BodySpec.present transport Method.POST "/users" (some user)

/-- The example `User` value of the concrete scenarios. -/
def userKumar : JSValue :=
  JSValue.obj [("name", JSValue.str "Kumar")]

/-- A transport stub that echoes back exactly one structured value. -/
def echoStub (v : JSValue) : Transport :=
  fun _ _ => Except.ok { status := 200, jsonResult := some v }

/-- A transport stub that fails with a network error. -/
def failStub : Transport :=
  fun _ _ => Except.error ()

/-- A transport stub whose response body cannot be parsed at all. -/
def malformedStub : Transport :=
  fun _ _ => Except.ok { status := 200, jsonResult := none }

/-- A transport stub that captures the outgoing body: it answers with
the transmitted body text, or with `null` when no body was sent. -/
def captureBodyStub : Transport :=
  fun _ init =>
    Except.ok
      { status := 200
        jsonResult :=
          some (match init.body with
                | some s => JSValue.str s
                | none => JSValue.null) }

/-- A transport stub that captures the URL it is handed. -/
def captureUrlStub : Transport :=
  fun url _ => Except.ok { status := 200, jsonResult := some (JSValue.str url) }

/-- A transport stub answering a fixed status and decode outcome. -/
def constStub (status : Nat) (j : Option JSValue) : Transport :=
  fun _ _ => Except.ok { status := status, jsonResult := j }

/-- Claim C1: against a transport stub that echoes back exactly a
structured value, `request` yields precisely that value, for every
method, endpoint and body; in particular a GET of "/users/1" against
a stub echoing the Kumar user yields a value equal to it. -/
theorem c1_echo_roundtrip :
    (∀ (v : JSValue) (m : Method) (e : String) (b : Option JSValue),
        request (echoStub v) m e b = Except.ok v)
    ∧ request (echoStub userKumar) Method.GET "/users/1" none
        = Except.ok userKumar := by
  refine ⟨fun v m e b => rfl, rfl⟩

/-- Claim C2 counterexample: a well-typed GET invocation that supplies
a body (legal under a body-capable descriptor) does transmit that
body: the configuration handed to the transport carries the serialized
payload, and a body-capturing stub observes it. -/
theorem c2_counterexample :
    (requestInit Method.GET (some userKumar)).body
        = some "\x7b\"name\":\"Kumar\"\x7d"
    ∧ request captureBodyStub Method.GET "/users/1" (some userKumar)
        = Except.ok (JSValue.str "\x7b\"name\":\"Kumar\"\x7d") := by
  refine ⟨rfl, rfl⟩

/-- Claim C2 as amended: a GET invocation that supplies no body
argument transmits no body — in particular `getUser`, the source's
GET call site, never transmits one — but the method itself is not
consulted: body omission, not the GET method, is what guarantees a
bodyless request. -/
theorem c2_amended_get_without_body :
    (requestInit Method.GET none).body = none
    ∧ (∀ (e : String),
        request captureBodyStub Method.GET e none = Except.ok JSValue.null)
    ∧ (∀ (uid : Int),
        getUser captureBodyStub uid = Except.ok JSValue.null) := by
  refine ⟨rfl, fun e => rfl, fun uid => rfl⟩

/-- Claim C3 counterexample: a POST with the declared body value `0`
(legal, since `number` satisfies the descriptor constraint) transmits
no payload at all rather than the serialization "0" of the value:
the falsy-body check drops it. -/
theorem c3_counterexample :
    (requestInit Method.POST (some (JSValue.num 0))).body = none
    ∧ (requestInit Method.POST (some (JSValue.num 0))).body
        ≠ some (stringify (JSValue.num 0)) := by
  refine ⟨rfl, fun h => Option.noConfusion ((rfl : (requestInit Method.POST (some (JSValue.num 0))).body = none) ▸ h)⟩

/-- Claim C3 as amended: for every POST with a declared truthy body
value (every object body in particular), the transmitted payload is
exactly the JSON serialization of that value; the concrete scenario
transmits the text with name Kumar, both through `request` directly
and through `createUser`.  Falsy declared bodies (0, false, the empty
string) are silently not transmitted. -/
theorem c3_amended_post_body_serialized :
    (∀ (m : Method) (b : JSValue), jsTruthy (some b) = true →
        (requestInit m (some b)).body = some (stringify b))
    ∧ request captureBodyStub Method.POST "/users" (some userKumar)
        = Except.ok (JSValue.str "\x7b\"name\":\"Kumar\"\x7d")
    ∧ createUser captureBodyStub userKumar
        = Except.ok (JSValue.str "\x7b\"name\":\"Kumar\"\x7d") := by
  refine ⟨fun m b h => ?_, rfl, rfl⟩
  simp [requestInit, requestBodyField, h]

/-- Claim C3 witness: the general serialization law applied to the
concrete POST of the Kumar user. -/
theorem c3_amended_witness :
    (requestInit Method.POST (some userKumar)).body
        = some (stringify userKumar) :=
  c3_amended_post_body_serialized.1 Method.POST userKumar rfl

/-- Claim C4: under a descriptor whose `BodyType` is `undefined`, the
typed call boundary admits no body value at all — every well-typed
body argument erases to the absent body — so every such invocation
reaches the transport with no body; nothing else about the call is
affected. -/
theorem c4_absent_descriptor_rejects_body :
    (∀ (b : BodyArg BodySpec.absent), eraseBody BodySpec.absent b = none)
    ∧ (∀ (t : Transport) (m : Method) (e : String)
          (b : BodyArg BodySpec.absent),
        requestTyped BodySpec.absent t m e b = request t m e none)
    ∧ (∀ (m : Method) (e : String) (b : BodyArg BodySpec.absent),
        request captureBodyStub m e (eraseBody BodySpec.absent b)
          = Except.ok JSValue.null) := by
  refine ⟨fun b => rfl, fun t m e b => rfl, fun m e b => rfl⟩

/-- Claim C5 counterexample: the present body value `false` is not
serialized and transmitted — the transport receives no body for it —
so serialization does not happen for every present body value. -/
theorem c5_counterexample :
    (requestInit Method.POST (some (JSValue.bool false))).body = none
    ∧ request captureBodyStub Method.POST "/flags"
        (some (JSValue.bool false)) = Except.ok JSValue.null := by
  refine ⟨rfl, rfl⟩

/-- Claim C5 as amended: every present truthy body value — in
particular every object and every array — is serialized from
structured payload to text and that text is transmitted, whatever the
method; present falsy primitives (false, 0, the empty string) are
dropped instead. -/
theorem c5_amended_truthy_body_serialized :
    ∀ (m : Method) (e : String) (b : JSValue), jsTruthy (some b) = true →
      request captureBodyStub m e (some b)
        = Except.ok (JSValue.str (stringify b)) := by
  intro m e b h
  simp [request, requestInit, requestBodyField, captureBodyStub, h]

/-- Claim C5 witness: the amended law at the concrete Kumar object. -/
theorem c5_amended_witness :
    request captureBodyStub Method.POST "/users" (some userKumar)
      = Except.ok (JSValue.str (stringify userKumar)) :=
  c5_amended_truthy_body_serialized Method.POST "/users" userKumar rfl

/-- Claim C6: the URL handed to the transport is the fixed base URL
with the endpoint concatenated verbatim after it, for every endpoint,
method and body — observed both on the URL construction itself and
through a URL-capturing transport. -/
theorem c6_url_verbatim_concatenation :
    (∀ (e : String), requestUrl e = "https://api.com/v1" ++ e)
    ∧ (∀ (m : Method) (e : String) (b : Option JSValue),
        request captureUrlStub m e b
          = Except.ok (JSValue.str ("https://api.com/v1" ++ e))) := by
  refine ⟨fun e => rfl, fun m e b => rfl⟩

/-- Claim C7: whenever the transport fails, `request` fails with
`TransportError`; no partial or default value is ever returned for a
failed transport. -/
theorem c7_transport_failure_propagates (t : Transport) (m : Method)
    (e : String) (b : Option JSValue)
    (h : t (requestUrl e) (requestInit m b) = Except.error ()) :
    request t m e b = Except.error RequestError.transport := by
  simp [request, h]

/-- Claim C7 witness: the failing stub at a concrete GET. -/
theorem c7_witness :
    request failStub Method.GET "/users/1" none
      = Except.error RequestError.transport :=
  c7_transport_failure_propagates failStub Method.GET "/users/1" none rfl

/-- Claim C8: whenever the transport's response body cannot be parsed
at all, `request` fails with `DecodingError`; it does not succeed
with a null or default value. -/
theorem c8_decoding_failure_propagates (t : Transport) (m : Method)
    (e : String) (b : Option JSValue) (resp : JsResponse)
    (h : t (requestUrl e) (requestInit m b) = Except.ok resp)
    (hj : resp.jsonResult = none) :
    request t m e b = Except.error RequestError.decoding := by
  simp [request, h, hj]

/-- Claim C8 witness: the malformed-body stub at a concrete GET. -/
theorem c8_witness :
    request malformedStub Method.GET "/users/1" none
      = Except.error RequestError.decoding :=
  c8_decoding_failure_propagates malformedStub Method.GET "/users/1" none
    { status := 200, jsonResult := none } rfl rfl

/-- Claim C9: a successfully parsed response value is returned
unchanged — no field, type or shape of it is checked against the
declared response type — and the status code is never inspected: for
any fixed decode outcome the result is identical across all statuses,
so an error status decodes exactly as a success would. -/
theorem c9_no_validation_no_status_check :
    (∀ (t : Transport) (m : Method) (e : String) (b : Option JSValue)
          (resp : JsResponse) (v : JSValue),
        t (requestUrl e) (requestInit m b) = Except.ok resp →
        resp.jsonResult = some v →
        request t m e b = Except.ok v)
    ∧ (∀ (m : Method) (e : String) (b : Option JSValue) (s₁ s₂ : Nat)
          (j : Option JSValue),
        request (constStub s₁ j) m e b = request (constStub s₂ j) m e b) := by
  constructor
  · intro t m e b resp v h hj
    simp [request, h, hj]
  · intro m e b s₁ s₂ j
    cases j <;> rfl

/-- Claim C9 witness: a status-500 response whose body decodes to the
Kumar user is returned unchanged, exactly as a success would be. -/
theorem c9_witness :
    request (constStub 500 (some userKumar)) Method.GET "/users/1" none
      = Except.ok userKumar :=
  c9_no_validation_no_status_check.1 (constStub 500 (some userKumar))
    Method.GET "/users/1" none
    { status := 500, jsonResult := some userKumar } userKumar rfl rfl

/-- Claim C10: `request` is deterministic in its explicit inputs and
the transport — equal inputs give equal results — and the call-site
descriptor has no runtime influence: a descriptor-typed call erases
exactly to `request` on the erased body, whichever descriptor is
used. -/
theorem c10_deterministic_descriptor_erased :
    (∀ (t t' : Transport) (m m' : Method) (e e' : String)
          (b b' : Option JSValue),
        t = t' → m = m' → e = e' → b = b' →
        request t m e b = request t' m' e' b')
    ∧ (∀ (t : Transport) (m : Method) (e : String) (b : Option JSValue),
        requestTyped BodySpec.present t m e b = request t m e b)
    ∧ (∀ (t : Transport) (m : Method) (e : String)
          (u : BodyArg BodySpec.absent),
        requestTyped BodySpec.absent t m e u = request t m e none) := by
  refine ⟨?_, fun t m e b => rfl, fun t m e u => rfl⟩
  intro t t' m m' e e' b b' ht hm he hb
  rw [ht, hm, he, hb]

/-- Claim C10 witness: determinism applied at one concrete
invocation. -/
theorem c10_witness :
    request failStub Method.GET "/users/1" none
      = request failStub Method.GET "/users/1" none :=
  c10_deterministic_descriptor_erased.1 failStub failStub Method.GET
    Method.GET "/users/1" "/users/1" none none rfl rfl rfl rfl
